import Mathlib

/-!
Verification of the version-gating code generator in
`simics-macro/src/versioned/mod.rs` (the `versioned_api_impl` macro and its
generated wrapper), against the repository specification.

The generated wrapper's runtime behaviour is embedded shallowly:

* `anyMatches` embeds the `#const_*_name.iter().any(|v| ...)` loops of the
  gate closure, whose body parses each requirement literal with a panicking
  `.expect` and tests it against the resolved version.
* `gateClosure` embeds the closure passed to `OnceLock::get_or_init`
  (lines 133-168 of `versioned/mod.rs`).
* `getOrInit` embeds the sequential semantics of
  `std::sync::OnceLock::get_or_init` on the per-function boolean cell.
* `wrapperPlain` / `wrapperResult` embed the generated public wrapper body
  in its two modes (original return type not syntactically `Result`, or
  syntactically `Result`), including the `UnsupportedCall` construction and
  the `?` propagation of a display-time resolver failure.
* `is_result_type` and `rewriteOutput` embed the syntactic return-type
  inspection (`IsResultType for ReturnType`) and the output rewriting.
* `inner_ident`, `static_name`, `const_valid_name`, `const_invalid_name`
  embed the deterministic naming of generated declarations.

Process aborts (the `.expect` calls, which panic) are made explicit through
the `AbortOr` outcome type.  The external runtime version resolver
`crate::version_base_semver()` is a collaborator outside this crate's
sources; it is passed in as an explicit `Except String String` value at each
of its two call sites (gate warm-up, and display-time error construction).
The requirement model of the `versions` crate (also external) is passed in
as abstract `parseVersion` / `parseReq` / `matches` functions: the generated
code is generic in them.
-/

namespace Versioned

/-- Reasons the generated gate code panics the process: the three `.expect`
calls in the gate closure (failing to obtain the base version string,
failing to parse the version string, failing to parse a requirement
literal). -/
inductive AbortReason where
  | getVersionFailed
  | parseVersionFailed (version : String)
  | parseRequirementFailed (literal : String)
deriving Repr, DecidableEq

/-- Outcome of running code that may abort (panic) the process. -/
inductive AbortOr (α : Type) where
  | abort (r : AbortReason)
  | ok (a : α)
deriving Repr, DecidableEq

/-- Modelled from the spec: the recoverable error values of
`crate::error::Error` that the generated wrapper can return to its caller
(section 7 of the specification).  `UnsupportedCall` carries the resolved
version display string and copies of both requirement lists (field order as
constructed at lines 169-173 of `versioned/mod.rs`); `Resolver` stands for a
`crate::version_base_semver()` failure propagated by the `?` operator at the
display-time call site.  The `ParseVersion` / `ParseRequirement` error
values constructed in the gate closure are immediately fed to `.expect` and
so only ever surface as process aborts, recorded in `AbortReason`. -/
inductive Error where
  | UnsupportedCall (version : String) (invalid : List String) (valid : List String)
  | Resolver (msg : String)
deriving Repr, DecidableEq

section GateModel

variable {Req Ver : Type}

/-- Embedding of the `iter().any(|v| ...)` loops in the gate closure
(lines 143-159): parse each requirement literal left to right, aborting via
`.expect` when a literal fails to parse, and stop at the first parsed
requirement that matches the resolved version. -/
def anyMatches (parseReq : String → Option Req) (matched : Req → Ver → Bool)
    (version : Ver) : List String → AbortOr Bool
  | [] => .ok false
  | lit :: rest =>
    match parseReq lit with
    | none => .abort (.parseRequirementFailed lit)
    | some r =>
      if matched r version then .ok true
      else anyMatches parseReq matched version rest

/-- Embedding of the closure passed to `OnceLock::get_or_init`
(lines 133-168): obtain the base version string (abort on resolver failure),
parse it (abort on failure), compute `is_valid` over the valid list, then
`is_invalid` over the invalid list, and return
`if is_invalid then false else if !is_valid then false else true`. -/
def gateClosure (resolver : Except String String)
    (parseVersion : String → Option Ver)
    (parseReq : String → Option Req) (matched : Req → Ver → Bool)
    (validList invalidList : List String) : AbortOr Bool :=
  match resolver with
  | .error _ => .abort .getVersionFailed
  | .ok s =>
    match parseVersion s with
    | none => .abort (.parseVersionFailed s)
    | some version =>
      match anyMatches parseReq matched version validList with
      | .abort r => .abort r
      | .ok is_valid =>
        match anyMatches parseReq matched version invalidList with
        | .abort r => .abort r
        | .ok is_invalid =>
          .ok (if is_invalid then false else if !is_valid then false else true)

end GateModel

/-- Sequential semantics of `std::sync::OnceLock::get_or_init` on the
per-function boolean cell `VERSIONED_ENABLED_*`: if the cell already holds a
value, return it unchanged without running the closure; otherwise run the
closure (which may abort) and store its result.  The returned triple is
(observed boolean, new cell state, whether the closure ran). -/
def getOrInit (cell : Option Bool) (f : Unit → AbortOr Bool) :
    AbortOr (Bool × Option Bool × Bool) :=
  match cell with
  | some b => .ok (b, some b, false)
  | none =>
    match f () with
    | .abort r => .abort r
    | .ok b => .ok (b, some b, true)

section WrapperModel

variable {Req Ver : Type} {α : Type}

/-- Embedding of the generated public wrapper body (lines 131-180) for a
function whose declared return type is not syntactically `Result`: evaluate
the gate through `get_or_init`; when the gate is closed, return
`Err(UnsupportedCall { version: version_base_semver()?, invalid, valid })`
(a display-time resolver failure is propagated by `?` as a recoverable
error); when the gate is open, call the renamed implementation and wrap its
plain value in `Ok` (the `ok_return` path for a non-`Result` output).  The
updated cell state is returned alongside the caller-visible outcome. -/
def wrapperPlain (cell : Option Bool)
    (resolverWarm resolverDisplay : Except String String)
    (parseVersion : String → Option Ver)
    (parseReq : String → Option Req) (matched : Req → Ver → Bool)
    (validList invalidList : List String)
    (impl : Unit → α) : AbortOr (Except Error α × Option Bool) :=
  match getOrInit cell
      (fun _ => gateClosure resolverWarm parseVersion parseReq matched validList invalidList) with
  | .abort r => .abort r
  | .ok (gate, cellAfter, _) =>
    if !gate then
      match resolverDisplay with
      | .error e => .ok (.error (.Resolver e), cellAfter)
      | .ok v => .ok (.error (.UnsupportedCall v invalidList validList), cellAfter)
    else
      .ok (.ok (impl ()), cellAfter)

/-- Embedding of the generated public wrapper body for a function whose
declared return type is syntactically `Result`: identical to `wrapperPlain`
except that the implementation's outcome is returned unchanged (the
`ok_return` path is `result`, with no second wrapping), so its failure
variant passes through unmodified. -/
def wrapperResult (cell : Option Bool)
    (resolverWarm resolverDisplay : Except String String)
    (parseVersion : String → Option Ver)
    (parseReq : String → Option Req) (matched : Req → Ver → Bool)
    (validList invalidList : List String)
    (impl : Unit → Except Error α) : AbortOr (Except Error α × Option Bool) :=
  match getOrInit cell
      (fun _ => gateClosure resolverWarm parseVersion parseReq matched validList invalidList) with
  | .abort r => .abort r
  | .ok (gate, cellAfter, _) =>
    if !gate then
      match resolverDisplay with
      | .error e => .ok (.error (.Resolver e), cellAfter)
      | .ok v => .ok (.error (.UnsupportedCall v invalidList validList), cellAfter)
    else
      .ok (impl (), cellAfter)

end WrapperModel

/-- Repeated `get_or_init` evaluations against the same cell, one closure
per call, threading the cell state: the sequential life of one wrapped
function's gate over a list of calls.  Returns the list of (observed
boolean, closure-ran flag) pairs and the final cell state. -/
def runGateCalls (cell : Option Bool) :
    List (Unit → AbortOr Bool) → AbortOr (List (Bool × Bool) × Option Bool)
  | [] => .ok ([], cell)
  | f :: fs =>
    match getOrInit cell f with
    | .abort r => .abort r
    | .ok (b, cellAfter, ran) =>
      match runGateCalls cellAfter fs with
      | .abort r => .abort r
      | .ok (outs, final) => .ok ((b, ran) :: outs, final)

/-! Syntactic return-type model (`syn::ReturnType` / `syn::Type`) and the
transformation performed by `versioned_api_impl`. -/

/-- Shallow model of `syn::Type` as far as the macro inspects it: a path
type is a nonempty segment list, each segment an identifier together with
its generic type arguments; the unit tuple type `()`; anything else. -/
inductive RustType where
  | path (segments : List (String × List RustType))
  | unit
  | other
deriving Repr

/-- Shallow model of `syn::ReturnType`: either no declared return type
(`Default`) or a declared type. -/
inductive ReturnType where
  | default
  | ty (t : RustType)
deriving Repr

/-- Embedding of `IsResultType::is_result_type` (lines 23-38): `false` for a
missing return type; for a path type, test whether the last segment's
identifier is literally `Result`; `false` for every other type shape. -/
def is_result_type : ReturnType → Bool
  | .default => false
  | .ty (.path segments) =>
    ((segments.getLast?).map (fun l => l.1 == "Result")).getD false
  | .ty _ => false

/-- The `output` quoted at lines 86-89: the declared return type, or the
unit tuple type `()` when no return type was declared. -/
def declaredOrUnit : ReturnType → RustType
  | .default => .unit
  | .ty t => t

/-- Embedding of the `sig.output` rewrite (lines 83-93): when the declared
return type is already syntactically `Result`, keep it unchanged; otherwise
rewrite to `crate::error::Result<output>` where `output` is the declared
type, or `()` when no return type was declared. -/
def rewriteOutput (rt : ReturnType) : ReturnType :=
  if is_result_type rt then rt
  else .ty (.path [("crate", []), ("error", []), ("Result", [declaredOrUnit rt])])

/-! Deterministic naming of the generated declarations (lines 72 and
117-119). -/

/-- Embedding of Rust's `str::to_ascii_uppercase`: map every ASCII lowercase
letter to its uppercase form, leaving all other characters unchanged
(`Char.toUpper` uppercases exactly the ASCII range). -/
def to_ascii_uppercase (s : String) : String := ⟨s.data.map Char.toUpper⟩

/-- Name of the renamed private implementation
(`format_ident!("versioned_{}", ...)`, line 72). -/
def inner_ident (n : String) : String := "versioned_" ++ n

/-- Name of the memoized boolean cell
(`format_ident!("VERSIONED_ENABLED_{}", input_name.to_ascii_uppercase())`,
line 117, where `input_name` is the renamed inner identifier). -/
def static_name (n : String) : String :=
  "VERSIONED_ENABLED_" ++ to_ascii_uppercase (inner_ident n)

/-- Name of the generated `valid` requirement-list constant (line 118). -/
def const_valid_name (n : String) : String :=
  "VERSIONED_VALID_" ++ to_ascii_uppercase (inner_ident n)

/-- Name of the generated `invalid` requirement-list constant (line 119). -/
def const_invalid_name (n : String) : String :=
  "VERSIONED_INVALID_" ++ to_ascii_uppercase (inner_ident n)

/-- Discriminator for the `UnsupportedCall` error constructor. -/
def Error.isUnsupportedCall : Error → Bool
  | .UnsupportedCall .. => true
  | _ => false

section GateLemmas

variable {Req Ver : Type}

/-- When every literal of a list parses, the panicking `any` loop computes
exactly the boolean `any` of the parsed requirements against the version. -/
theorem anyMatches_of_all_parse (pr : String → Option Req) (m : Req → Ver → Bool)
    (V : Ver) (l : List String) (h : ∀ x ∈ l, (pr x).isSome) :
    anyMatches pr m V l =
      .ok (l.any fun lit => ((pr lit).map (fun r => m r V)).getD false) := by
  induction l with
  | nil => rfl
  | cons lit rest ih =>
    have hlit : (pr lit).isSome := h lit (List.mem_cons_self ..)
    obtain ⟨r, hr⟩ := Option.isSome_iff_exists.mp hlit
    have hrest : ∀ x ∈ rest, (pr x).isSome := fun x hx => h x (List.mem_cons_of_mem _ hx)
    simp only [anyMatches, hr, List.any_cons, Option.map_some', Option.getD_some]
    by_cases hm : m r V
    · simp [hm]
    · simp only [if_neg hm, ih hrest]
      simp [hm]

/-- The panicking `any` loop returns `true` as soon as one literal parses to
a matching requirement, never looking at later literals, provided the
literals before it parse. -/
theorem anyMatches_short_circuit (pr : String → Option Req) (m : Req → Ver → Bool)
    (V : Ver) (l1 : List String) (lit : String) (r : Req) (l2 : List String)
    (h1 : ∀ x ∈ l1, (pr x).isSome) (h2 : pr lit = some r) (h3 : m r V = true) :
    anyMatches pr m V (l1 ++ lit :: l2) = .ok true := by
  induction l1 with
  | nil => simp [anyMatches, h2, h3]
  | cons x rest ih =>
    have hx : (pr x).isSome := h1 x (List.mem_cons_self ..)
    obtain ⟨rx, hrx⟩ := Option.isSome_iff_exists.mp hx
    have hrest : ∀ y ∈ rest, (pr y).isSome := fun y hy => h1 y (List.mem_cons_of_mem _ hy)
    simp only [List.cons_append, anyMatches, hrx]
    by_cases hm : m rx V
    · simp [hm]
    · simpa [hm] using ih hrest

end GateLemmas

/-- C1: for every resolved version `V` and requirement lists whose literals
all parse, the gate boolean equals
`any(valid, r => matches(r, V)) && !any(invalid, r => matches(r, V))`;
in particular an invalid match forces the gate to `false` even when a valid
requirement also matches. -/
theorem versioned_gate_boolean_formula {Req Ver : Type} (s : String) (V : Ver)
    (pv : String → Option Ver) (pr : String → Option Req) (m : Req → Ver → Bool)
    (validList invalidList : List String)
    (hpv : pv s = some V)
    (hv : ∀ x ∈ validList, (pr x).isSome)
    (hi : ∀ x ∈ invalidList, (pr x).isSome) :
    gateClosure (Except.ok s) pv pr m validList invalidList =
      .ok ((validList.any fun lit => ((pr lit).map (fun r => m r V)).getD false)
        && !(invalidList.any fun lit => ((pr lit).map (fun r => m r V)).getD false))
    ∧ ((invalidList.any fun lit => ((pr lit).map (fun r => m r V)).getD false) = true →
        gateClosure (Except.ok s) pv pr m validList invalidList = .ok false) := by
  have key : gateClosure (Except.ok s) pv pr m validList invalidList =
      .ok ((validList.any fun lit => ((pr lit).map (fun r => m r V)).getD false)
        && !(invalidList.any fun lit => ((pr lit).map (fun r => m r V)).getD false)) := by
    simp only [gateClosure, hpv, anyMatches_of_all_parse pr m V validList hv,
      anyMatches_of_all_parse pr m V invalidList hi]
    cases validList.any fun lit => ((pr lit).map (fun r => m r V)).getD false <;>
      cases invalidList.any fun lit => ((pr lit).map (fun r => m r V)).getD false <;> rfl
  refine ⟨key, fun hinv => ?_⟩
  rw [key, hinv]
  simp

/-- Witness for C1 at a concrete instance: one valid literal and one invalid
literal, both parsing and both matching; the gate evaluates to
`true && !true = false`. -/
theorem versioned_gate_boolean_formula_witness :
    gateClosure (Except.ok "1.0.0") (fun _ => some ()) (fun _ => some ())
        (fun (_ : Unit) (_ : Unit) => true) ["a"] ["b"] =
      .ok (((["a"].any fun lit =>
          (((fun (_ : String) => some ()) lit).map (fun r => (fun (_ : Unit) (_ : Unit) => true) r ())).getD false))
        && !((["b"].any fun lit =>
          (((fun (_ : String) => some ()) lit).map (fun r => (fun (_ : Unit) (_ : Unit) => true) r ())).getD false)))
    ∧ (((["b"].any fun lit =>
          (((fun (_ : String) => some ()) lit).map (fun r => (fun (_ : Unit) (_ : Unit) => true) r ())).getD false)) = true →
        gateClosure (Except.ok "1.0.0") (fun _ => some ()) (fun _ => some ())
          (fun (_ : Unit) (_ : Unit) => true) ["a"] ["b"] = .ok false) :=
  versioned_gate_boolean_formula "1.0.0" () (fun _ => some ()) (fun _ => some ())
    (fun _ _ => true) ["a"] ["b"] rfl (by intro x _; rfl) (by intro x _; rfl)

/-- C2 counterexample: the generated gate closure computes `is_valid` over
the valid list BEFORE `is_invalid` over the invalid list.  With a malformed
valid literal and an invalid literal matching the resolved version, the
claim predicts the valid list is never parsed (gate `.ok false`); the code
parses the valid literal first and aborts. -/
theorem versioned_invalid_first_cex :
    gateClosure (Except.ok "1.0.0") (fun _ => some ())
        (fun l => if l = "BAD" then none else some ())
        (fun (_ : Unit) (_ : Unit) => true) ["BAD"] ["=1.0.0"] =
      .abort (.parseRequirementFailed "BAD")
    ∧ AbortOr.abort (α := Bool) (.parseRequirementFailed "BAD") ≠ .ok false := by
  constructor
  · rfl
  · intro h
    exact AbortOr.noConfusion h

/-- C2 amended: the gate closure resolves the version first, then computes
`is_valid` over the valid list, then `is_invalid` over the invalid list —
both lists eagerly, in that order — and returns `is_valid && !is_invalid`.
An abort while scanning the valid list wins over any outcome of the invalid
list, and the invalid list is scanned even when `is_valid` is already
known. -/
theorem versioned_valid_scanned_before_invalid {Req Ver : Type} (s : String)
    (V : Ver) (pv : String → Option Ver) (pr : String → Option Req)
    (m : Req → Ver → Bool) (validList invalidList : List String)
    (hpv : pv s = some V) :
    (∀ r, anyMatches pr m V validList = .abort r →
      gateClosure (Except.ok s) pv pr m validList invalidList = .abort r)
    ∧ (∀ bv r, anyMatches pr m V validList = .ok bv →
        anyMatches pr m V invalidList = .abort r →
        gateClosure (Except.ok s) pv pr m validList invalidList = .abort r)
    ∧ (∀ bv bi, anyMatches pr m V validList = .ok bv →
        anyMatches pr m V invalidList = .ok bi →
        gateClosure (Except.ok s) pv pr m validList invalidList = .ok (bv && !bi)) := by
  refine ⟨fun r hv => ?_, fun bv r hv hi => ?_, fun bv bi hv hi => ?_⟩
  · simp [gateClosure, hpv, hv]
  · simp [gateClosure, hpv, hv, hi]
  · simp only [gateClosure, hpv, hv, hi]
    cases bv <;> cases bi <;> rfl

/-- Witness for C2's amended statement: with a well-formed valid list and a
malformed invalid literal, the gate scans the valid list to `true` and then
aborts on the invalid literal — exhibiting the valid-then-invalid order. -/
theorem versioned_valid_scanned_before_invalid_witness :
    gateClosure (Except.ok "1.0.0") (fun _ => some ())
        (fun l => if l = "BAD" then none else some ())
        (fun (_ : Unit) (_ : Unit) => true) ["ok"] ["BAD"] =
      .abort (.parseRequirementFailed "BAD") := by
  have h := versioned_valid_scanned_before_invalid "1.0.0" ()
    (fun _ => some ()) (fun l => if l = "BAD" then none else some ())
    (fun _ _ => true) ["ok"] ["BAD"] rfl
  exact h.2.1 true (.parseRequirementFailed "BAD") (by decide) (by decide)

/-- C10: within one requirement list the scan is lazy and left-to-right:
once a literal parses to a requirement matching the resolved version, the
scan stops with `true`, so everything after it — malformed or not — is never
parsed and cannot abort the process; in particular the gate result does not
depend on what follows the first match in either list. -/
theorem versioned_scan_stops_at_first_match {Req Ver : Type} (s : String)
    (V : Ver) (pv : String → Option Ver) (pr : String → Option Req)
    (m : Req → Ver → Bool) (l1 : List String) (lit : String) (r : Req)
    (l2 l2' : List String) (validList invalidList : List String)
    (hpv : pv s = some V)
    (h1 : ∀ x ∈ l1, (pr x).isSome) (h2 : pr lit = some r) (h3 : m r V = true) :
    anyMatches pr m V (l1 ++ lit :: l2) = .ok true
    ∧ gateClosure (Except.ok s) pv pr m (l1 ++ lit :: l2) invalidList =
        gateClosure (Except.ok s) pv pr m (l1 ++ lit :: l2') invalidList
    ∧ gateClosure (Except.ok s) pv pr m validList (l1 ++ lit :: l2) =
        gateClosure (Except.ok s) pv pr m validList (l1 ++ lit :: l2') := by
  have key := fun l => anyMatches_short_circuit pr m V l1 lit r l h1 h2 h3
  refine ⟨key l2, ?_, ?_⟩
  · simp only [gateClosure, hpv, key l2, key l2']
  · simp only [gateClosure, hpv, key l2, key l2']

/-- Witness for C10: a malformed literal after a matching one never aborts;
with `l2 = ["BAD"]` and `l2' = []` the scan result is `true` and the gate is
unchanged by the malformed tail. -/
theorem versioned_scan_stops_at_first_match_witness :
    anyMatches (fun l => if l = "BAD" then none else some ())
        (fun (_ : Unit) (_ : Unit) => true) () (["a"] ++ "b" :: ["BAD"]) = .ok true
    ∧ gateClosure (Except.ok "1.0.0") (fun _ => some ())
        (fun l => if l = "BAD" then none else some ())
        (fun (_ : Unit) (_ : Unit) => true) (["a"] ++ "b" :: ["BAD"]) ["z"] =
      gateClosure (Except.ok "1.0.0") (fun _ => some ())
        (fun l => if l = "BAD" then none else some ())
        (fun (_ : Unit) (_ : Unit) => true) (["a"] ++ "b" :: []) ["z"]
    ∧ gateClosure (Except.ok "1.0.0") (fun _ => some ())
        (fun l => if l = "BAD" then none else some ())
        (fun (_ : Unit) (_ : Unit) => true) ["z"] (["a"] ++ "b" :: ["BAD"]) =
      gateClosure (Except.ok "1.0.0") (fun _ => some ())
        (fun l => if l = "BAD" then none else some ())
        (fun (_ : Unit) (_ : Unit) => true) ["z"] (["a"] ++ "b" :: []) :=
  versioned_scan_stops_at_first_match "1.0.0" () (fun _ => some ())
    (fun l => if l = "BAD" then none else some ()) (fun _ _ => true)
    ["a"] "b" () ["BAD"] [] ["z"] ["z"] rfl (by decide) (by decide) rfl

/-- C3 counterexample: with empty `valid` and `invalid` lists the gate is
closed, but a call whose display-time `version_base_semver()` invocation
fails returns the propagated resolver error, not an `UnsupportedCall` — so
not every call returns the `UnsupportedCall` error. -/
theorem versioned_empty_lists_cex :
    wrapperPlain none (Except.ok "1.0.0") (Except.error "io")
        (fun _ => some ()) (fun _ => (none : Option Unit))
        (fun (_ : Unit) (_ : Unit) => true) [] [] (fun _ => (0 : Nat)) =
      .ok (.error (.Resolver "io"), some false)
    ∧ (Error.Resolver "io").isUnsupportedCall = false := by
  exact ⟨rfl, rfl⟩

/-- C3 amended: with empty `valid` and `invalid` lists the gate computes
`false` for every successfully resolved version, and every call that obtains
the version string for display returns `UnsupportedCall` with both
requirement fields empty; a call whose display-time resolver invocation
fails returns the propagated resolver error instead.  An empty `valid` list
is never treated as "allow everything". -/
theorem versioned_empty_lists_gate_closed {Req Ver : Type} {α : Type}
    (s : String) (V : Ver) (pv : String → Option Ver) (pr : String → Option Req)
    (m : Req → Ver → Bool) (cell : Option Bool) (v e : String) (impl : Unit → α)
    (hpv : pv s = some V) (hcell : cell = none ∨ cell = some false) :
    gateClosure (Except.ok s) pv pr m [] [] = .ok false
    ∧ wrapperPlain cell (Except.ok s) (Except.ok v) pv pr m [] [] impl =
        .ok (.error (.UnsupportedCall v [] []), some false)
    ∧ wrapperPlain cell (Except.ok s) (Except.error e) pv pr m [] [] impl =
        .ok (.error (.Resolver e), some false) := by
  have hgate : gateClosure (Except.ok s) pv pr m ([] : List String) ([] : List String) =
      .ok false := by
    simp [gateClosure, hpv, anyMatches]
  refine ⟨hgate, ?_, ?_⟩ <;>
    rcases hcell with h | h <;> subst h <;>
      simp [wrapperPlain, getOrInit, hgate]

/-- Witness for C3's amended statement at a concrete instance: uninitialized
cell, resolvable version, empty lists. -/
theorem versioned_empty_lists_gate_closed_witness :
    gateClosure (Except.ok "6.0.0") (fun _ => some ()) (fun _ => (none : Option Unit))
        (fun (_ : Unit) (_ : Unit) => true) [] [] = .ok false
    ∧ wrapperPlain none (Except.ok "6.0.0") (Except.ok "6.0.0") (fun _ => some ())
        (fun _ => (none : Option Unit)) (fun (_ : Unit) (_ : Unit) => true) [] []
        (fun _ => (0 : Nat)) =
      .ok (.error (.UnsupportedCall "6.0.0" [] []), some false)
    ∧ wrapperPlain none (Except.ok "6.0.0") (Except.error "io") (fun _ => some ())
        (fun _ => (none : Option Unit)) (fun (_ : Unit) (_ : Unit) => true) [] []
        (fun _ => (0 : Nat)) =
      .ok (.error (.Resolver "io"), some false) :=
  versioned_empty_lists_gate_closed "6.0.0" () (fun _ => some ())
    (fun _ => none) (fun _ _ => true) none "6.0.0" "io" (fun _ => 0)
    rfl (Or.inl rfl)

/-- Repeated `get_or_init` calls on an already-initialized cell all read the
cached boolean, never run a closure, and leave the cell unchanged. -/
theorem runGateCalls_cached (b : Bool) (fs : List (Unit → AbortOr Bool)) :
    runGateCalls (some b) fs = .ok (fs.map (fun _ => (b, false)), some b) := by
  induction fs with
  | nil => rfl
  | cons f fs ih => simp [runGateCalls, getOrInit, ih]

/-- C4: over any sequence of calls on one function's gate starting from the
uninitialized cell, all calls observe the same boolean, the gate closure
runs at most once, and every call after the first reads the cached value
without recomputation. -/
theorem versioned_gate_computed_once (fs : List (Unit → AbortOr Bool))
    (outs : List (Bool × Bool)) (final : Option Bool)
    (h : runGateCalls none fs = .ok (outs, final)) :
    (∀ p ∈ outs, ∀ q ∈ outs, p.1 = q.1)
    ∧ outs.countP (fun p => p.2) ≤ 1
    ∧ ∀ p ∈ outs.tail, p.2 = false := by
  cases fs with
  | nil =>
    simp only [runGateCalls, AbortOr.ok.injEq, Prod.mk.injEq] at h
    obtain ⟨h1, -⟩ := h
    subst h1
    simp
  | cons f fs =>
    simp only [runGateCalls, getOrInit] at h
    cases hf : f () with
    | abort r => simp [hf] at h
    | ok b =>
      simp only [hf, runGateCalls_cached, AbortOr.ok.injEq, Prod.mk.injEq] at h
      obtain ⟨h1, -⟩ := h
      subst h1
      have hfst : ∀ p ∈ ((b, true) :: fs.map (fun _ => (b, false))), p.1 = b := by
        intro p hp
        rcases List.mem_cons.mp hp with rfl | hp
        · rfl
        · obtain ⟨a, -, rfl⟩ := List.mem_map.mp hp
          rfl
      refine ⟨fun p hp q hq => (hfst p hp).trans (hfst q hq).symm, ?_, ?_⟩
      · simp [List.countP_cons, List.countP_map, Function.comp]
      · intro p hp
        simp only [List.tail_cons] at hp
        obtain ⟨a, -, rfl⟩ := List.mem_map.mp hp
        rfl

/-- Witness for C4: two calls, the first computing `true`; the first call
runs the closure, the second reads the cache, both observe `true`. -/
theorem versioned_gate_computed_once_witness :
    (∀ p ∈ [(true, true), (true, false)], ∀ q ∈ [(true, true), (true, false)],
      Prod.fst p = Prod.fst q)
    ∧ List.countP (fun p => p.2) [(true, true), (true, false)] ≤ 1
    ∧ ∀ p ∈ List.tail [(true, true), (true, false)], p.2 = false :=
  versioned_gate_computed_once
    [fun _ => .ok true, fun _ => .ok true]
    [(true, true), (true, false)] (some true) (by decide)

/-- C6: whenever the gate evaluates to closed and the display-time resolver
yields the version string `v`, both wrapper shapes return exactly
`Err(UnsupportedCall)` carrying `v` together with complete, order-preserving
copies of the declared `invalid` and `valid` requirement lists — no other
error kind is produced for version incompatibility. -/
theorem versioned_unsupported_call_payload {Req Ver : Type} {α : Type}
    (cell cellAfter : Option Bool) (ran : Bool)
    (resolverWarm : Except String String) (pv : String → Option Ver)
    (pr : String → Option Req) (m : Req → Ver → Bool)
    (validList invalidList : List String) (v : String)
    (impl : Unit → α) (implR : Unit → Except Error α)
    (hgate : getOrInit cell
        (fun _ => gateClosure resolverWarm pv pr m validList invalidList) =
      .ok (false, cellAfter, ran)) :
    wrapperPlain cell resolverWarm (Except.ok v) pv pr m validList invalidList impl =
      .ok (.error (.UnsupportedCall v invalidList validList), cellAfter)
    ∧ wrapperResult cell resolverWarm (Except.ok v) pv pr m validList invalidList implR =
      .ok (.error (.UnsupportedCall v invalidList validList), cellAfter) := by
  constructor
  · simp [wrapperPlain, hgate]
  · simp [wrapperResult, hgate]

/-- Witness for C6 at the specification's Scenario A shape: cached-closed
gate, `valid = [">=6.0.174"]`, `invalid = []`, displayed version
`"6.0.173"`. -/
theorem versioned_unsupported_call_payload_witness :
    wrapperPlain (some false) (Except.ok "6.0.173") (Except.ok "6.0.173")
        (fun _ => some ()) (fun _ => some ()) (fun (_ : Unit) (_ : Unit) => false)
        [">=6.0.174"] [] (fun _ => (0 : Nat)) =
      .ok (.error (.UnsupportedCall "6.0.173" [] [">=6.0.174"]), some false)
    ∧ wrapperResult (some false) (Except.ok "6.0.173") (Except.ok "6.0.173")
        (fun _ => some ()) (fun _ => some ()) (fun (_ : Unit) (_ : Unit) => false)
        [">=6.0.174"] [] (fun _ => (Except.ok 0 : Except Error Nat)) =
      .ok (.error (.UnsupportedCall "6.0.173" [] [">=6.0.174"]), some false) :=
  versioned_unsupported_call_payload (some false) (some false) false
    (Except.ok "6.0.173") (fun _ => some ()) (fun _ => some ()) (fun _ _ => false)
    [">=6.0.174"] [] "6.0.173" (fun _ => 0) (fun _ => Except.ok 0) rfl

/-- C7: failure handling is asymmetric between the two phases.  During gate
warm-up a resolver failure, a malformed resolved-version string, or a
malformed requirement literal makes the gate closure abort the process, and
an aborting closure makes the wrapper call abort rather than return; whereas
once the gate is (or has been) computed closed, a display-time resolver
failure is returned to the caller as an ordinary recoverable error. -/
theorem versioned_abort_vs_recoverable {Req Ver : Type} {α : Type}
    (e1 e2 sBad sGood lit : String) (V : Ver)
    (pv : String → Option Ver) (pr : String → Option Req) (m : Req → Ver → Bool)
    (validList validTail invalidList : List String)
    (resolverWarm resolverDisplay : Except String String) (r : AbortReason)
    (cell cellAfter : Option Bool) (ran : Bool) (impl : Unit → α)
    (hBad : pv sBad = none) (hGood : pv sGood = some V) (hlit : pr lit = none)
    (habort : gateClosure resolverWarm pv pr m validList invalidList = .abort r)
    (hgate : getOrInit cell
        (fun _ => gateClosure resolverWarm pv pr m validList invalidList) =
      .ok (false, cellAfter, ran)) :
    gateClosure (Except.error e1) pv pr m validList invalidList =
      .abort .getVersionFailed
    ∧ gateClosure (Except.ok sBad) pv pr m validList invalidList =
      .abort (.parseVersionFailed sBad)
    ∧ gateClosure (Except.ok sGood) pv pr m (lit :: validTail) invalidList =
      .abort (.parseRequirementFailed lit)
    ∧ wrapperPlain none resolverWarm resolverDisplay pv pr m validList invalidList impl =
      .abort r
    ∧ wrapperPlain cell resolverWarm (Except.error e2) pv pr m validList invalidList impl =
      .ok (.error (.Resolver e2), cellAfter) := by
  refine ⟨rfl, ?_, ?_, ?_, ?_⟩
  · simp [gateClosure, hBad]
  · simp [gateClosure, hGood, anyMatches, hlit]
  · simp [wrapperPlain, getOrInit, habort]
  · simp [wrapperPlain, hgate]

/-- Witness for C7 at a concrete instance: resolver failure during warm-up
aborts; a cached-closed gate with a failing display-time resolver returns a
recoverable resolver error. -/
theorem versioned_abort_vs_recoverable_witness :
    gateClosure (Except.error "boom") (fun x => if x = "bad" then none else some ())
        (fun _ => (none : Option Unit)) (fun (_ : Unit) (_ : Unit) => true) [] [] =
      .abort .getVersionFailed
    ∧ gateClosure (Except.ok "bad") (fun x => if x = "bad" then none else some ())
        (fun _ => (none : Option Unit)) (fun (_ : Unit) (_ : Unit) => true) [] [] =
      .abort (.parseVersionFailed "bad")
    ∧ gateClosure (Except.ok "good") (fun x => if x = "bad" then none else some ())
        (fun _ => (none : Option Unit)) (fun (_ : Unit) (_ : Unit) => true)
        ("L" :: []) [] =
      .abort (.parseRequirementFailed "L")
    ∧ wrapperPlain none (Except.error "boom") (Except.ok "v")
        (fun x => if x = "bad" then none else some ())
        (fun _ => (none : Option Unit)) (fun (_ : Unit) (_ : Unit) => true) [] []
        (fun _ => (0 : Nat)) =
      .abort .getVersionFailed
    ∧ wrapperPlain (some false) (Except.error "boom") (Except.error "io2")
        (fun x => if x = "bad" then none else some ())
        (fun _ => (none : Option Unit)) (fun (_ : Unit) (_ : Unit) => true) [] []
        (fun _ => (0 : Nat)) =
      .ok (.error (.Resolver "io2"), some false) :=
  versioned_abort_vs_recoverable "boom" "io2" "bad" "good" "L" ()
    (fun x => if x = "bad" then none else some ()) (fun _ => none) (fun _ _ => true)
    [] [] [] (Except.error "boom") (Except.ok "v") .getVersionFailed
    (some false) (some false) false (fun _ => 0)
    (by decide) (by decide) rfl rfl rfl

/-- C8: return-type normalization is decided by the purely syntactic test
"is the terminal path-segment identifier literally `Result`"; a type passing
the test keeps its declared output and the wrapper passes the
implementation's outcome through unchanged (failure value included, no
second wrapping); any other declared output is rewritten to
`crate::error::Result<output>` (with `()` when no return type was declared)
and the implementation's plain value is wrapped in the success variant. -/
theorem versioned_output_normalization {Req Ver : Type} {α : Type}
    (rt rtR rtP : ReturnType) (cell cellAfter : Option Bool) (ran : Bool)
    (resolverWarm resolverDisplay : Except String String)
    (pv : String → Option Ver) (pr : String → Option Req) (m : Req → Ver → Bool)
    (validList invalidList : List String)
    (impl : Unit → α) (implR : Unit → Except Error α)
    (hR : is_result_type rtR = true) (hP : is_result_type rtP = false)
    (hgate : getOrInit cell
        (fun _ => gateClosure resolverWarm pv pr m validList invalidList) =
      .ok (true, cellAfter, ran)) :
    (is_result_type rt = true ↔ ∃ segments seg, rt = .ty (.path segments)
      ∧ segments.getLast? = some seg ∧ seg.1 = "Result")
    ∧ rewriteOutput rtR = rtR
    ∧ rewriteOutput rtP =
        .ty (.path [("crate", []), ("error", []), ("Result", [declaredOrUnit rtP])])
    ∧ wrapperResult cell resolverWarm resolverDisplay pv pr m validList invalidList implR
        = .ok (implR (), cellAfter)
    ∧ wrapperPlain cell resolverWarm resolverDisplay pv pr m validList invalidList impl
        = .ok (.ok (impl ()), cellAfter) := by
  refine ⟨?_, ?_, ?_, ?_, ?_⟩
  · constructor
    · intro h
      match rt, h with
      | .ty (.path segments), h =>
        cases hl : segments.getLast? with
        | none => rw [is_result_type, hl] at h; simp at h
        | some seg =>
          rw [is_result_type, hl] at h
          simp only [Option.map_some', Option.getD_some, beq_iff_eq] at h
          exact ⟨segments, seg, rfl, hl, h⟩
    · rintro ⟨segments, seg, rfl, hl, hseg⟩
      rw [is_result_type, hl]
      simp [hseg]
  · simp [rewriteOutput, hR]
  · simp [rewriteOutput, hP]
  · simp [wrapperResult, hgate]
  · simp [wrapperPlain, hgate]

/-- Witness for C8: `std::result::Result<T, E>`-shaped output keeps its
type and an error outcome passes through unchanged; a `u32`-shaped output is
rewritten to `crate::error::Result<u32>` and the plain value is wrapped. -/
theorem versioned_output_normalization_witness :
    (is_result_type (.ty (.path [("std", []), ("result", []), ("Result", [.unit])])) = true
      ↔ ∃ segments seg,
          ReturnType.ty (.path [("std", []), ("result", []), ("Result", [.unit])])
            = .ty (.path segments)
          ∧ segments.getLast? = some seg ∧ seg.1 = "Result")
    ∧ rewriteOutput (.ty (.path [("std", []), ("result", []), ("Result", [.unit])])) =
        .ty (.path [("std", []), ("result", []), ("Result", [.unit])])
    ∧ rewriteOutput (.ty (.path [("u32", [])])) =
        .ty (.path [("crate", []), ("error", []),
          ("Result", [declaredOrUnit (.ty (.path [("u32", [])]))])])
    ∧ wrapperResult (some true) (Except.ok "7.1.0") (Except.ok "7.1.0")
        (fun _ => some ()) (fun _ => some ()) (fun (_ : Unit) (_ : Unit) => true) [] []
        (fun _ => (Except.error (.Resolver "inner") : Except Error Nat)) =
      .ok (Except.error (.Resolver "inner"), some true)
    ∧ wrapperPlain (some true) (Except.ok "7.1.0") (Except.ok "7.1.0")
        (fun _ => some ()) (fun _ => some ()) (fun (_ : Unit) (_ : Unit) => true) [] []
        (fun _ => (42 : Nat)) =
      .ok (.ok 42, some true) :=
  versioned_output_normalization
    (.ty (.path [("std", []), ("result", []), ("Result", [.unit])]))
    (.ty (.path [("std", []), ("result", []), ("Result", [.unit])]))
    (.ty (.path [("u32", [])]))
    (some true) (some true) false (Except.ok "7.1.0") (Except.ok "7.1.0")
    (fun _ => some ()) (fun _ => some ()) (fun _ _ => true) [] []
    (fun _ => 42) (fun _ => Except.error (.Resolver "inner"))
    rfl rfl rfl

/-- C9 counterexample: generated names are produced from the ASCII-uppercased
function name, so the distinct function names `foo` and `fOO` collide on
every generated declaration name. -/
theorem versioned_naming_collision_cex :
    static_name "foo" = static_name "fOO"
    ∧ const_valid_name "foo" = const_valid_name "fOO"
    ∧ const_invalid_name "foo" = const_invalid_name "fOO"
    ∧ "foo" ≠ "fOO" := by
  refine ⟨rfl, rfl, rfl, ?_⟩
  decide

/-- Names generated by the macro are prefixed uppercasings of the inner
identifier; uppercasing distributes over the string data. -/
theorem to_ascii_uppercase_append (a b : String) :
    to_ascii_uppercase (a ++ b) = to_ascii_uppercase a ++ to_ascii_uppercase b := by
  apply String.ext
  simp [to_ascii_uppercase, String.data_append]

/-- Appending to a fixed front string is injective. -/
theorem string_append_left_cancel (p x y : String) (h : p ++ x = p ++ y) : x = y := by
  apply String.ext
  have := congrArg String.data h
  simp only [String.data_append] at this
  exact List.append_cancel_left this

/-- C9 amended: the generated declaration names are a deterministic function
of the wrapped function's name, and they are collision-free for every two
function names whose ASCII-uppercase forms differ; names differing only by
ASCII case (such as `foo` and `fOO`) collide. -/
theorem versioned_naming_injective_upto_case (n1 n2 : String)
    (h : to_ascii_uppercase n1 ≠ to_ascii_uppercase n2) :
    inner_ident n1 ≠ inner_ident n2
    ∧ static_name n1 ≠ static_name n2
    ∧ const_valid_name n1 ≠ const_valid_name n2
    ∧ const_invalid_name n1 ≠ const_invalid_name n2 := by
  have hne : n1 ≠ n2 := fun hn => h (hn ▸ rfl)
  have hupper : to_ascii_uppercase (inner_ident n1) ≠ to_ascii_uppercase (inner_ident n2) := by
    intro hu
    rw [inner_ident, inner_ident, to_ascii_uppercase_append, to_ascii_uppercase_append] at hu
    exact h (string_append_left_cancel _ _ _ hu)
  refine ⟨?_, ?_, ?_, ?_⟩
  · intro hi
    exact hne (string_append_left_cancel _ _ _ hi)
  · intro hs
    exact hupper (string_append_left_cancel _ _ _ hs)
  · intro hs
    exact hupper (string_append_left_cancel _ _ _ hs)
  · intro hs
    exact hupper (string_append_left_cancel _ _ _ hs)

/-- Witness for C9's amended statement at the concrete names `foo` and
`bar`, whose uppercasings differ. -/
theorem versioned_naming_injective_upto_case_witness :
    inner_ident "foo" ≠ inner_ident "bar"
    ∧ static_name "foo" ≠ static_name "bar"
    ∧ const_valid_name "foo" ≠ const_valid_name "bar"
    ∧ const_invalid_name "foo" ≠ const_invalid_name "bar" :=
  versioned_naming_injective_upto_case "foo" "bar" (by decide)

end Versioned
